import Mathlib

/-!
Verification development for the bitinfrashop connection-lifecycle core.

Shallow embedding of:
- the data model (Shop, InfrastructureProvider, Connection, PaymentHistory)
  from the Prisma schema as used by the lifecycle code;
- `initiateConnectionPayment` / `retryConnectionPayment`
  (src/lib/connection-payment-service.ts);
- the manual-retry route POST /api/connections/:id/retry
  (src/app/api/connections/[id]/retry/route.ts);
- the Greenfield store-provisioning route POST /api/providers/greenfield/create-store
  (src/unnamed/part_004, first copy, with feature flags and audit logging);
- the BTCPay webhook route POST /api/webhooks/btcpay
  (src/app/api/webhooks/btcpay/route.ts);
- the dry-run provider client (src/unnamed/part_001).

External runtime primitives (prisma row lookups, encryption, fetch responses,
URL parsing, randomness, HMAC) are modelled as oracle inputs carried in
environment records; each oracle field is documented with the source
operation it stands for.  JavaScript truthiness of optional strings and
numbers is modelled explicitly by `strFalsy` and `natFalsy`.
-/

namespace Bitinfrashop

/-- Connection lifecycle status enum (Prisma `status` field). -/
inductive ConnStatus
  | PENDING
  | ACTIVE
  | PENDING_SETUP
  | FAILED
  | DISCONNECTED
deriving DecidableEq, Repr

/-- Connection type enum. -/
inductive ConnType
  | FREE_LISTING
  | PAID_SUBSCRIPTION
deriving DecidableEq, Repr

/-- Infrastructure provider service type enum. -/
inductive ServiceType
  | BTCPAY_SERVER
  | BLFS
  | OTHER
deriving DecidableEq, Repr

/-- JavaScript falsiness of a nullable string: null/undefined and the empty
string are falsy. -/
def strFalsy : Option String → Bool
  | none => true
  | some s => s == ""

/-- JavaScript falsiness of a nullable number: null/undefined and 0 are falsy. -/
def natFalsy : Option Nat → Bool
  | none => true
  | some n => n == 0

/-- Helper for `jsSplit`: accumulate characters until the separator. -/
def splitChars (sep : Char) : List Char → List Char → List (List Char)
  | [], acc => [acc.reverse]
  | c :: cs, acc =>
    if c = sep then acc.reverse :: splitChars sep cs []
    else splitChars sep cs (c :: acc)

/-- JavaScript `String.prototype.split` on a one-character separator,
implemented by structural recursion so that concrete instances reduce. -/
def jsSplit (sep : Char) (s : String) : List String :=
  (splitChars sep s.toList []).map List.asString

/-- Shop row: the fields touched by the lifecycle core.  `idStr` is the
primary key rendered as a string (it is only ever interpolated into
usernames and URLs by the lifecycle code). -/
structure Shop where
  idStr : String
  name : String
  website : Option String
  contactEmail : Option String
  lightningAddress : Option String
  btcpayStoreId : Option String
  btcpayUserId : Option String
  btcpayUsername : Option String
deriving DecidableEq, Repr

/-- InfrastructureProvider row: the fields touched by the lifecycle core.
`btcpayApiKey` and `webhookSecret` hold the encrypted-at-rest blobs. -/
structure Provider where
  name : String
  serviceType : ServiceType
  hostUrl : Option String
  btcpayApiKey : Option String
  webhookSecret : Option String
  lightningAddress : Option String
deriving DecidableEq, Repr

/-- Connection row. -/
structure Connection where
  connectionType : ConnType
  status : ConnStatus
  retryCount : Nat
  setupError : Option String
  subscriptionAmount : Option Nat
  subscriptionInterval : Option String
  nwcConnectionString : Option String
  nwcPaymentId : Option String
deriving DecidableEq, Repr

/-- PaymentHistory row (append-only audit ledger). -/
structure PaymentRecord where
  paymentAmount : Nat
  status : String
  paymentMethod : String
  walletProvider : Option String
  preimage : Option String
  errorMessage : Option String
deriving DecidableEq, Repr

/-- The persistent state relevant to one shop-provider connection: the Shop
row, the Provider row, the Connection row and the PaymentHistory rows
attached to the connection. -/
structure DB where
  shop : Shop
  provider : Provider
  conn : Connection
  history : List PaymentRecord
deriving DecidableEq, Repr

/-- PaymentResult returned by the connection payment service. -/
structure PaymentResult where
  success : Bool
  preimage : Option String := none
  paymentId : Option String := none
  error : Option String := none
  amount : Option Nat := none
  recipient : Option String := none
deriving DecidableEq, Repr

/-- Oracle inputs for one invocation of `initiateConnectionPayment`.  Each
field stands for the outcome of one external runtime operation. -/
structure PaymentEnv where
  /-- whether `prisma.connection.findUnique` finds the row for the given id -/
  connFound : Bool
  /-- outcome of `encryptionService.encrypt` on the NWC string
  (`.error msg` = the service threw with that message) -/
  encryptResult : Except String String
  /-- outcome of the n-th prisma write performed by this invocation
  (`some msg` = the write threw with that message) -/
  writeThrow : Nat → Option String
  /-- result of parsing the NWC connection string with `new URL`, as used by
  `parseNWCConnectionString`: relay URL together with the resolved secret
  (query parameter `secret` or the fragment); `.error` = the URL
  constructor threw -/
  nwcUrl : Except Unit (String × String)
  /-- response of `GET https://{domain}/.well-known/lnurlp/{user}`:
  `.error` = network failure or non-2xx or JSON failure; `.ok cb` = parsed
  body with nullable `callback` field -/
  lnurlpCallback : Except Unit (Option String)
  /-- response of `GET {callback}?amount=...&comment=...`:
  `.error` = network failure or non-2xx or JSON failure; `.ok pr` = parsed
  body with nullable `pr` field -/
  invoicePr : Except Unit (Option String)
  /-- outcome of the mock NWC send in `sendPaymentViaNWC`: preimage hex from
  `crypto.randomBytes` and the time-stamped payment id; `.error msg` = a
  throw inside the try block -/
  nwcRandom : Except String (String × String)
  /-- result of `extractWalletProvider` on the NWC connection string
  (hostname pattern classification; cosmetic) -/
  walletProvider : String

/-- Relay URL and secret extracted from an NWC connection string. -/
structure NwcInfo where
  relayUrl : String
  secret : String
deriving DecidableEq, Repr

/-- `parseNWCConnectionString`: parse the nostr+walletconnect URL; a missing
(falsy) secret throws; the catch block rethrows every failure as
"Invalid NWC connection string format". -/
def parseNWCConnectionString (env : PaymentEnv) : Except String NwcInfo :=
  match env.nwcUrl with
  | .error _ => .error "Invalid NWC connection string format"
  | .ok (relay, secret) =>
    if secret == "" then .error "Invalid NWC connection string format"
    else .ok ⟨relay, secret⟩

/-- `generateInvoiceFromLightningAddress`: split the address at the first
"@", fetch the well-known lnurlp descriptor, then fetch an invoice from its
callback for amount*1000 millisats.  All internal failures are caught and
become `none`.  Also returns the list of outbound HTTP URLs actually
fetched. -/
def generateInvoiceFromLightningAddress (env : PaymentEnv) (lightningAddress : String)
    (amountSats : Nat) (description : String) : Option String × List String :=
  let parts := jsSplit (Char.ofNat 64) lightningAddress
  let username := parts.getD 0 ""
  let domain := parts.getD 1 ""
  if username == "" || domain == "" then (none, [])
  else
    let url1 := "https://" ++ domain ++ "/.well-known/lnurlp/" ++ username
    match env.lnurlpCallback with
    | .error _ => (none, [url1])
    | .ok cb =>
      if strFalsy cb then (none, [url1])
      else
        let url2 := cb.getD "" ++ "?amount=" ++ toString (amountSats * 1000)
          ++ "&comment=" ++ description
        match env.invoicePr with
        | .error _ => (none, [url1, url2])
        | .ok pr =>
          if strFalsy pr then (none, [url1, url2])
          else (some (pr.getD ""), [url1, url2])

/-- `sendPaymentViaNWC`: the mock NWC dispatch; always succeeds with a random
preimage and a time-stamped payment id unless something inside the try block
throws, in which case the catch returns a failed result. -/
def sendPaymentViaNWC (env : PaymentEnv) : PaymentResult :=
  match env.nwcRandom with
  | .ok (pre, pid) => { success := true, preimage := some pre, paymentId := some pid }
  | .error e => { success := false, error := some e }

/-- `sendNWCPayment`: parse the NWC string, generate an invoice from the
lightning address, dispatch it over NWC; its own try/catch converts a parse
throw into a failed result.  Also returns the outbound HTTP URLs fetched. -/
def sendNWCPayment (env : PaymentEnv) (amountSats : Nat)
    (recipientLightningAddress description : String) : PaymentResult × List String :=
  match parseNWCConnectionString env with
  | .error e => ({ success := false, error := some e }, [])
  | .ok _ =>
    let (invoice, calls) :=
      generateInvoiceFromLightningAddress env recipientLightningAddress amountSats description
    match invoice with
    | none =>
      ({ success := false, error := some "Failed to generate invoice from lightning address" },
        calls)
    | some _ =>
      let r := sendPaymentViaNWC env
      ({ r with amount := some amountSats, recipient := some recipientLightningAddress }, calls)

instance (α β : Type) [DecidableEq α] [DecidableEq β] : DecidableEq (Except α β) :=
  fun a b =>
    match a, b with
    | .ok x, .ok y => if h : x = y then .isTrue (by rw [h]) else .isFalse (by simp [h])
    | .error x, .error y => if h : x = y then .isTrue (by rw [h]) else .isFalse (by simp [h])
    | .ok _, .error _ => .isFalse (by simp)
    | .error _, .ok _ => .isFalse (by simp)

/-- Outcome of a payment-service call: the result (still `.error` when an
exception escapes the modelled region), the database state after the writes
that did run, and the outbound HTTP URLs fetched. -/
structure PayOut where
  result : Except String PaymentResult
  db : DB
  calls : List String

/-- Body of `initiateConnectionPayment` (the region inside its try block):
load the connection, check the subscription amount and the provider
lightning address, encrypt and store the NWC string, run the payment, and
record the outcome.  Exceptions of sub-operations propagate as `.error`. -/
def initiateConnectionPaymentBody (env : PaymentEnv) (db : DB) : PayOut :=
  if !env.connFound then
    ⟨.ok { success := false, error := some "Connection not found" }, db, []⟩
  else if natFalsy db.conn.subscriptionAmount then
    ⟨.ok { success := false, error := some "No subscription amount configured" }, db, []⟩
  else if strFalsy db.provider.lightningAddress then
    ⟨.ok { success := false, error := some "Provider lightning address not configured" }, db, []⟩
  else
    let amount := db.conn.subscriptionAmount.getD 0
    let recipient := db.provider.lightningAddress.getD ""
    match env.encryptResult with
    | .error e => ⟨.error e, db, []⟩
    | .ok enc =>
      match env.writeThrow 0 with
      | some e => ⟨.error e, db, []⟩
      | none =>
        let db1 := { db with conn := { db.conn with nwcConnectionString := some enc } }
        let description := db.shop.name ++ " subscription to " ++ db.provider.name
        let (paymentResult, calls) := sendNWCPayment env amount recipient description
        if paymentResult.success then
          match env.writeThrow 1 with
          | some e => ⟨.error e, db1, calls⟩
          | none =>
            let db2 := { db1 with history := db1.history ++
              [{ paymentAmount := amount, status := "success", paymentMethod := "NWC",
                 walletProvider := some env.walletProvider,
                 preimage := paymentResult.preimage, errorMessage := none }] }
            match env.writeThrow 2 with
            | some e => ⟨.error e, db2, calls⟩
            | none =>
              ⟨.ok paymentResult,
                { db2 with conn := { db2.conn with
                    nwcPaymentId := paymentResult.paymentId, status := .ACTIVE } }, calls⟩
        else
          match env.writeThrow 1 with
          | some e => ⟨.error e, db1, calls⟩
          | none =>
            let db2 := { db1 with history := db1.history ++
              [{ paymentAmount := amount, status := "failed", paymentMethod := "NWC",
                 walletProvider := some env.walletProvider,
                 preimage := none, errorMessage := paymentResult.error }] }
            match env.writeThrow 2 with
            | some e => ⟨.error e, db2, calls⟩
            | none =>
              ⟨.ok paymentResult,
                { db2 with conn := { db2.conn with
                    status := .FAILED,
                    setupError :=
                      some ("Payment failed: " ++ paymentResult.error.getD "undefined") } },
                calls⟩

/-- `initiateConnectionPayment`: the body wrapped in the boundary try/catch
that converts every escaped exception into a failed PaymentResult. -/
def initiateConnectionPayment (env : PaymentEnv) (db : DB) : PayOut :=
  let b := initiateConnectionPaymentBody env db
  match b.result with
  | .ok r => ⟨.ok r, b.db, b.calls⟩
  | .error e => ⟨.ok { success := false, error := some e }, b.db, b.calls⟩

/-- Oracle inputs for `retryConnectionPayment`. -/
structure RetryPayEnv where
  /-- whether its own `prisma.connection.findUnique` finds the row -/
  connFound : Bool
  /-- outcome of `encryptionService.decrypt` on the stored NWC string -/
  decryptResult : Except String String
  /-- environment for the inner `initiateConnectionPayment` call -/
  payEnv : PaymentEnv

/-- `retryConnectionPayment`: reload the connection, require a stored NWC
string, decrypt it and re-invoke `initiateConnectionPayment`; its try/catch
converts decrypt failures into a failed result. -/
def retryConnectionPayment (env : RetryPayEnv) (db : DB) : PayOut :=
  if !env.connFound then
    ⟨.ok { success := false, error := some "Connection not found" }, db, []⟩
  else if strFalsy db.conn.nwcConnectionString then
    ⟨.ok { success := false, error := some "NWC connection string not found" }, db, []⟩
  else
    match env.decryptResult with
    | .error e => ⟨.ok { success := false, error := some e }, db, []⟩
    | .ok _ => initiateConnectionPayment env.payEnv db

/-! ## Manual retry route: POST /api/connections/:id/retry -/

/-- Oracle inputs for one invocation of the manual-retry route. -/
structure RetryEnv where
  /-- whether the `user_id` cookie is present -/
  authed : Bool
  /-- whether `prisma.connection.findFirst` with the ownership filter finds
  the row -/
  connFound : Bool
  /-- outcome of `encryptionService.decrypt` on the provider API key
  (used by `retryBTCPaySetup`) -/
  decryptApiKey : Except String String
  /-- outcome of `btcpayClient.createShopSetup` (store id, user id);
  `.error msg` = the composite call threw with that message -/
  setupResult : Except String (String × String)
  /-- environment for `retryConnectionPayment` (used by `retryNWCPayment`) -/
  retryPay : RetryPayEnv

/-- Response of the manual-retry route, abstracted to its JSON content. -/
inductive RetryResponse
  /-- 401 Authentication required -/
  | authError
  /-- 404 Connection not found or access denied -/
  | notFound
  /-- 400 Connection is not in a failed state -/
  | notFailedState
  /-- 400 Maximum retry attempts (5) exceeded. Please contact support. -/
  | retryLimit
  /-- 200 success with the resulting status -/
  | ok (status : Option String)
  /-- 500 failure with the sub-operation error and the remaining-attempts flag -/
  | failure (error : Option String) (canRetryAgain : Bool)
deriving DecidableEq, Repr

/-- Outcome of a lifecycle route invocation. -/
structure RouteOut where
  resp : RetryResponse
  db : DB

/-- Internal result shape of `retryConnection` and its two helpers. -/
structure RetrySubResult where
  success : Bool
  error : Option String := none
  status : Option String := none

/-- The username generated for a shop on the BTCPay side:
`name.toLowerCase().replace(/[^a-z0-9]/g, "")` followed by `_` and the shop
id rendered by the caller (the shop id is threaded as a string here). -/
def sanitizeUsername (name : String) (shopId : String) : String :=
  (((name.toList.map Char.toLower).filter (fun c => c.isLower || c.isDigit)).asString)
    ++ "_" ++ shopId

/-- `retryBTCPaySetup`: re-run the Greenfield shop setup for the connection.
A decrypt or setup throw is caught and persisted as status FAILED with the
error message; success stores the credentials on the Shop and marks the
connection ACTIVE. -/
def retryBTCPaySetup (env : RetryEnv) (db : DB) : RetrySubResult × DB :=
  if strFalsy db.provider.hostUrl || strFalsy db.provider.btcpayApiKey then
    ({ success := false, error := some "Provider BTCPay configuration incomplete" }, db)
  else
    match env.decryptApiKey with
    | .error e =>
      ({ success := false, error := some e },
        { db with conn := { db.conn with status := .FAILED, setupError := some e } })
    | .ok _ =>
      let username :=
        if strFalsy db.shop.btcpayUsername then sanitizeUsername db.shop.name db.shop.idStr
        else db.shop.btcpayUsername.getD ""
      match env.setupResult with
      | .error e =>
        ({ success := false, error := some e },
          { db with conn := { db.conn with status := .FAILED, setupError := some e } })
      | .ok (storeId, userId) =>
        let db1 := { db with shop := { db.shop with
          btcpayStoreId := some storeId, btcpayUserId := some userId,
          btcpayUsername := some username } }
        ({ success := true, status := some "ACTIVE" },
          { db1 with conn := { db1.conn with status := .ACTIVE, setupError := none } })

/-- `retryNWCPayment`: delegate to `retryConnectionPayment` and translate its
PaymentResult into the retry-route result shape. -/
def retryNWCPayment (env : RetryEnv) (db : DB) : RetrySubResult × DB :=
  let p := retryConnectionPayment env.retryPay db
  match p.result with
  | .ok r =>
    if r.success then ({ success := true, status := some "ACTIVE" }, p.db)
    else
      ({ success := false,
         error := some (if strFalsy r.error then "Payment failed" else r.error.getD "") }, p.db)
  | .error e => ({ success := false, error := some e }, p.db)

/-- `retryConnection`: dispatch on provider service type and connection
type; a connection that is neither a BTCPay setup nor a paid connection
with a stored NWC string falls through with an error and no state change. -/
def retryConnection (env : RetryEnv) (db : DB) : RetrySubResult × DB :=
  if db.provider.serviceType == .BTCPAY_SERVER then retryBTCPaySetup env db
  else if db.conn.connectionType == .PAID_SUBSCRIPTION
      && !(strFalsy db.conn.nwcConnectionString) then retryNWCPayment env db
  else
    ({ success := false, error := some "Unable to determine retry method for this connection" },
      db)

/-- POST /api/connections/:id/retry: ownership check, retryable-status check,
retry-limit check, then increment `retryCount` and set status PENDING before
dispatching the retry sub-operation. -/
def retryRoutePOST (env : RetryEnv) (db : DB) : RouteOut :=
  if !env.authed then ⟨.authError, db⟩
  else if !env.connFound then ⟨.notFound, db⟩
  else if db.conn.status ≠ .FAILED ∧ db.conn.status ≠ .PENDING_SETUP then
    ⟨.notFailedState, db⟩
  else if db.conn.retryCount ≥ 5 then ⟨.retryLimit, db⟩
  else
    let db1 := { db with conn := { db.conn with
      retryCount := db.conn.retryCount + 1, status := .PENDING } }
    let (r, db2) := retryConnection env db1
    if r.success then ⟨.ok r.status, db2⟩
    else ⟨.failure r.error (db.conn.retryCount + 1 < 5), db2⟩

/-! ## Greenfield provisioning route: POST /api/providers/greenfield/create-store -/

/-- Oracle inputs for one invocation of the Greenfield create-store route. -/
structure GreenfieldEnv where
  /-- whether the `user_id` cookie is present -/
  authed : Bool
  /-- whether the rate limiter rejected the request -/
  rateLimited : Bool
  /-- whether shopId, providerId and shopName are all present in the body -/
  fieldsPresent : Bool
  /-- whether `prisma.shop.findFirst` with the ownership filter finds the shop -/
  shopFound : Bool
  /-- whether `prisma.infrastructureProvider.findUnique` finds the provider -/
  providerFound : Bool
  /-- outcome of `encryptionService.decrypt` on the provider API key -/
  decryptApiKey : Except String String
  /-- whether the btcpay_integration feature flag is disabled -/
  flagDisabled : Bool
  /-- outcome of the n-th `createShopSetup` attempt (store id, user id);
  `.error msg` = the attempt threw with that message -/
  setup : Nat → Except String (String × String)
  /-- whether `prisma.connection.findFirst(shopId, providerId)` finds the
  connection row -/
  connRowFound : Bool

/-- Response of the Greenfield create-store route, abstracted to its JSON
content. -/
inductive GfResp
  | authError
  | rateLimited
  | missingFields
  | shopNotFound
  | invalidProvider
  | noHostUrl
  | noApiKey
  | decryptError
  | flagDisabled
  /-- 500 Failed to create BTCPay store after retries -/
  | failed (details : String)
  /-- 200 success payload -/
  | ok (storeId userId username : String)
deriving DecidableEq, Repr

/-- Outcome of a Greenfield route invocation: response, database state, how
many `createShopSetup` calls were made, and the backoff delays (ms) slept
between attempts. -/
structure GfOut where
  resp : GfResp
  db : DB
  setupCalls : Nat
  delaysMs : List Nat

/-- The success tail of the Greenfield route: store the BTCPay credentials on
the Shop, then (when the connection row is found) set the connection ACTIVE
with `setupError` cleared and `retryCount` reset to 0. -/
def greenfieldSuccess (env : GreenfieldEnv) (db : DB) (shopIdStr : String)
    (shopName storeId userId : String) (setupCalls : Nat) (delaysMs : List Nat) : GfOut :=
  let username := sanitizeUsername shopName shopIdStr
  let db1 := { db with shop := { db.shop with
    btcpayStoreId := some storeId, btcpayUserId := some userId,
    btcpayUsername := some username } }
  let db2 :=
    if env.connRowFound then
      { db1 with conn := { db1.conn with
        status := .ACTIVE, setupError := none, retryCount := 0 } }
    else db1
  ⟨.ok storeId userId username, db2, setupCalls, delaysMs⟩

/-- The exhausted-retries tail of the Greenfield route: when the connection
row is found, set it PENDING_SETUP with the last error message and
`retryCount` equal to the local loop counter (1), and answer 500. -/
def greenfieldFailure (env : GreenfieldEnv) (db : DB) (e2 : String) : GfOut :=
  let db1 :=
    if env.connRowFound then
      { db with conn := { db.conn with
        status := .PENDING_SETUP, setupError := some e2, retryCount := 1 } }
    else db
  ⟨.failed e2, db1, 2, [5000]⟩

/-- POST /api/providers/greenfield/create-store (the copy with feature flags,
rate limiting and audit logging): validation chain, then the bounded retry
loop around `createShopSetup` with `maxRetries = 1` (two total attempts and
one constant 5000 ms sleep), unrolled here since the bound is the literal 1.
On exhaustion the connection row (when found) is set PENDING_SETUP with the
last error and `retryCount` equal to the local loop counter (1). -/
def greenfieldPOST (env : GreenfieldEnv) (shopIdStr shopName : String) (db : DB) : GfOut :=
  if !env.authed then ⟨.authError, db, 0, []⟩
  else if env.rateLimited then ⟨.rateLimited, db, 0, []⟩
  else if !env.fieldsPresent then ⟨.missingFields, db, 0, []⟩
  else if !env.shopFound then ⟨.shopNotFound, db, 0, []⟩
  else if !env.providerFound || db.provider.serviceType ≠ .BTCPAY_SERVER then
    ⟨.invalidProvider, db, 0, []⟩
  else if strFalsy db.provider.hostUrl then ⟨.noHostUrl, db, 0, []⟩
  else if strFalsy db.provider.btcpayApiKey then ⟨.noApiKey, db, 0, []⟩
  else
    match env.decryptApiKey with
    | .error _ => ⟨.decryptError, db, 0, []⟩
    | .ok _ =>
      if env.flagDisabled then ⟨.flagDisabled, db, 0, []⟩
      else
        match env.setup 0 with
        | .ok (storeId, userId) =>
          greenfieldSuccess env db shopIdStr shopName storeId userId 1 []
        | .error _ =>
          match env.setup 1 with
          | .ok (storeId, userId) =>
            greenfieldSuccess env db shopIdStr shopName storeId userId 2 [5000]
          | .error e2 => greenfieldFailure env db e2

/-! ## BTCPay webhook route: POST /api/webhooks/btcpay -/

/-- `encryptionService.secureCompare`: length mismatch is rejected up front;
equal-length buffers are compared with `crypto.timingSafeEqual`, whose
functional content is byte equality. -/
def secureCompare (a b : String) : Bool :=
  if a.length ≠ b.length then false else a == b

/-- `verifyWebhookSignature`: the header has the shape `sha256=<hex>`; the
algorithm tag must be `sha256` and the hex part must securely compare equal
to HMAC-SHA256 of the raw body under the configured secret.  `hmac` is the
runtime primitive `encryptionService.hmacSha256` passed in as an oracle.
A header without a `=` makes the destructured hash undefined, which throws
inside the try block and yields false. -/
def verifyWebhookSignature (hmac : String → String → String)
    (payload signature secret : String) : Bool :=
  match jsSplit (Char.ofNat 61) signature with
  | algorithm :: hash :: _ =>
    if algorithm ≠ "sha256" then false
    else secureCompare hash (hmac payload secret)
  | _ => false

/-- Parsed webhook payload fields used by the route. -/
structure WhPayload where
  storeId : Option String
  evType : Option String
  userId : Option String
deriving DecidableEq, Repr

/-- Oracle inputs for one invocation of the webhook route. -/
structure WebhookEnv where
  /-- whether the provider_webhooks feature flag is disabled -/
  flagDisabled : Bool
  /-- whether the rate limiter rejected the request -/
  rateLimited : Bool
  /-- the btcpay-sig header, when present -/
  signature : Option String
  /-- the raw request body text -/
  body : String
  /-- result of JSON.parse on the body (none = parse throw) -/
  payload : Option WhPayload
  /-- the runtime HMAC-SHA256 primitive used during verification -/
  hmac : String → String → String

/-- Response of the webhook route, abstracted to its JSON content. -/
inductive WhResp
  /-- 503 Webhooks are currently disabled -/
  | disabled
  /-- 429 Too many requests -/
  | tooMany
  /-- 401 Missing signature -/
  | missingSig
  /-- 400 Invalid payload -/
  | invalidPayload
  /-- 400 Missing required fields -/
  | missingFields
  /-- 401 Invalid signature -/
  | invalidSig
  /-- 200 received: true -/
  | received
deriving DecidableEq, Repr

/-- Outcome of a webhook route invocation. -/
structure WhOut where
  resp : WhResp
  db : DB

/-- `handleStoreModified`: append an audit PaymentHistory row; no status
transition. -/
def handleStoreModified (db : DB) : DB :=
  { db with history := db.history ++
    [{ paymentAmount := 0, status := "store_modified_webhook",
       paymentMethod := "btcpay_webhook", walletProvider := none,
       preimage := none, errorMessage := none }] }

/-- `handleUserRemoved`: when the removed user is the Shop BTCPay user, mark
the connection DISCONNECTED and append an audit row; otherwise no action. -/
def handleUserRemoved (db : DB) (userId : Option String) : DB :=
  match userId, db.shop.btcpayUserId with
  | some u, some v =>
    if u = v then
      let db1 := { db with conn := { db.conn with
        status := .DISCONNECTED, setupError := some "User was removed from BTCPay store" } }
      { db1 with history := db1.history ++
        [{ paymentAmount := 0, status := "user_removed_webhook",
           paymentMethod := "btcpay_webhook", walletProvider := none,
           preimage := none,
           errorMessage := some ("User " ++ u ++ " removed from store") }] }
    else db
  | _, _ => db

/-- `handleStoreDeleted`: mark the connection DISCONNECTED, clear the Shop
BTCPay credential fields, and append an audit row. -/
def handleStoreDeleted (db : DB) : DB :=
  let db1 := { db with conn := { db.conn with
    status := .DISCONNECTED, setupError := some "Store was deleted from BTCPay Server" } }
  let db2 := { db1 with shop := { db1.shop with
    btcpayStoreId := none, btcpayUserId := none, btcpayUsername := none } }
  { db2 with history := db2.history ++
    [{ paymentAmount := 0, status := "store_deleted_webhook",
       paymentMethod := "btcpay_webhook", walletProvider := none,
       preimage := none, errorMessage := some "Store deleted from BTCPay Server" }] }

/-- POST /api/webhooks/btcpay: feature flag, rate limit, signature presence,
JSON parse and field checks; find the Shop by `btcpayStoreId` (a miss is
acknowledged with 200), find its BTCPay connection (a miss is acknowledged
with 200), verify the signature when a webhook secret is configured (a
missing secret skips verification), then dispatch on the event type; an
unhandled type is acknowledged without action. -/
def webhookPOST (env : WebhookEnv) (db : DB) : WhOut :=
  if env.flagDisabled then ⟨.disabled, db⟩
  else if env.rateLimited then ⟨.tooMany, db⟩
  else
    match env.signature with
    | none => ⟨.missingSig, db⟩
    | some sig =>
      match env.payload with
      | none => ⟨.invalidPayload, db⟩
      | some p =>
        if strFalsy p.storeId || strFalsy p.evType then ⟨.missingFields, db⟩
        else if db.shop.btcpayStoreId ≠ some (p.storeId.getD "") then ⟨.received, db⟩
        else if db.provider.serviceType ≠ .BTCPAY_SERVER ∨ strFalsy db.provider.hostUrl then
          ⟨.received, db⟩
        else if !(strFalsy db.provider.webhookSecret)
            && !(verifyWebhookSignature env.hmac env.body sig
                  (db.provider.webhookSecret.getD "")) then
          ⟨.invalidSig, db⟩
        else
          let t := p.evType.getD ""
          if t = "store.modified" then ⟨.received, handleStoreModified db⟩
          else if t = "store.user.removed" then ⟨.received, handleUserRemoved db p.userId⟩
          else if t = "store.deleted" then ⟨.received, handleStoreDeleted db⟩
          else ⟨.received, db⟩

/-! ## Dry-run provider client (BTCPayDryRunClient) -/

/-- BTCPay Greenfield user object. -/
structure BTCPayUser where
  id : String
  email : String
  emailConfirmed : Bool
  requiresEmailConfirmation : Bool
  approved : Bool
  roles : List String
deriving DecidableEq, Repr

/-- BTCPay Greenfield store object. -/
structure BTCPayStore where
  id : String
  name : String
  website : Option String
  speedPolicy : Option String
  defaultCurrency : Option String
deriving DecidableEq, Repr

/-- `mockUser`: the fixed-shape dry-run user with a time-seeded id
(`Date.now()` is supplied as `now`). -/
def mockUser (now : Nat) (email : String) : BTCPayUser :=
  { id := "dryrun_user_" ++ toString now, email := email, emailConfirmed := true,
    requiresEmailConfirmation := false, approved := true, roles := ["User"] }

/-- `mockStore`: the fixed-shape dry-run store with a time-seeded id. -/
def mockStore (now : Nat) (name : String) : BTCPayStore :=
  { id := "dryrun_store_" ++ toString now, name := name, website := none,
    speedPolicy := some "MediumSpeed", defaultCurrency := some "BTC" }

/-- One operation of the provider client, with its arguments. -/
inductive ClientOp
  | createUser (email password : String)
  | getUser (userId : String)
  | deleteUser (userId : String)
  | createStore (name : String) (website : Option String)
  | getStore (storeId : String)
  | updateStore (storeId : String)
  | deleteStore (storeId : String)
  | addStoreUser (storeId userId role : String)
  | removeStoreUser (storeId userId : String)
  | getStoreUsers (storeId : String)
  | createWebhook (storeId url : String) (events : List String)
  | createShopSetup (shopName shopEmail shopPassword : String) (website : Option String)
  | healthCheck
deriving DecidableEq, Repr

/-- Value returned by a provider-client operation. -/
inductive ClientResult
  | user (u : BTCPayUser)
  | store (s : BTCPayStore)
  | unit
  | bool (b : Bool)
  | users (l : List (String × String))
  | webhook (id url : String) (events : List String)
  | setup (u : BTCPayUser) (s : BTCPayStore)
deriving DecidableEq, Repr

/-- `BTCPayDryRunClient`: each overridden method checks the dry-run flag and
either returns its mock value with no network call, or delegates to the live
client (modelled by the oracle `live`, with a network call).  The returned
Bool records whether network I/O was performed. -/
def dryRunClientCall (dryRunMode : Bool) (live : ClientOp → ClientResult)
    (now : Nat) (op : ClientOp) : Bool × ClientResult :=
  if dryRunMode then
    (false,
      match op with
      | .createUser email _ => .user (mockUser now email)
      | .getUser _ => .user (mockUser now "dryrun@example.com")
      | .deleteUser _ => .unit
      | .createStore name _ => .store (mockStore now name)
      | .getStore _ => .store (mockStore now "Dry Run Store")
      | .updateStore _ => .store (mockStore now "Updated Store")
      | .deleteStore _ => .unit
      | .addStoreUser _ _ _ => .unit
      | .removeStoreUser _ _ => .unit
      | .getStoreUsers _ => .users [("dryrun_user_123", "Owner")]
      | .createWebhook _ url events => .webhook "dryrun_webhook_123" url events
      | .createShopSetup shopName shopEmail _ _ =>
          .setup (mockUser now shopEmail) (mockStore now shopName)
      | .healthCheck => .bool true)
  else (true, live op)

/-- Whether a client result is a value that carries an id at all (user,
store, store-user list, webhook descriptor, or shop-setup pair; void returns
and booleans carry none). -/
def resultCarriesId : ClientResult → Bool
  | .user _ => true
  | .store _ => true
  | .users _ => true
  | .webhook _ _ _ => true
  | .setup _ _ => true
  | .unit => false
  | .bool _ => false

/-- A string is tagged as synthetic when it begins with `dryrun_`. -/
def idIsDryrun (s : String) : Prop := ∃ t, s = "dryrun_" ++ t

/-- Every id carried by the result is tagged as synthetic; a value that
carries no id vacuously fails this (the claim requires an id). -/
def ResultIdsDryrun : ClientResult → Prop
  | .user u => idIsDryrun u.id
  | .store s => idIsDryrun s.id
  | .users l => l ≠ [] ∧ ∀ p ∈ l, idIsDryrun p.1
  | .webhook i _ _ => idIsDryrun i
  | .setup u s => idIsDryrun u.id ∧ idIsDryrun s.id
  | .unit => False
  | .bool _ => False

/-! ## Lifecycle state machine

Initial states come from the connection-creating part of POST /api/shops:
the connection row is created PENDING (retryCount 0), then for a paid
subscription `initiateConnectionPayment` runs, and for a free listing the
status is set ACTIVE.  (The same route then fires the Greenfield
provisioning endpoint over HTTP; that endpoint is a step of its own.)
Subsequent steps are the HTTP entry points that mutate the connection:
manual retry, Greenfield create-store, and the BTCPay webhook. -/

/-- Parameters of a shop-plus-connection creation request. -/
structure CreateParams where
  shopIdStr : String
  shopName : String
  website : Option String
  contactEmail : Option String
  lightningAddress : Option String
  provider : Provider
  amount : Option Nat
  interval : Option String

/-- The Shop row as created by POST /api/shops (no BTCPay credentials). -/
def freshShop (p : CreateParams) : Shop :=
  { idStr := p.shopIdStr, name := p.shopName, website := p.website,
    contactEmail := p.contactEmail, lightningAddress := p.lightningAddress,
    btcpayStoreId := none, btcpayUserId := none, btcpayUsername := none }

/-- The connection-creating part of POST /api/shops: create the connection
PENDING, then initiate the payment (paid subscription) or activate it (free
listing). -/
def initialDB (p : CreateParams) (env : PaymentEnv) : DB :=
  let ct := if natFalsy p.amount then ConnType.FREE_LISTING else ConnType.PAID_SUBSCRIPTION
  let conn0 : Connection :=
    { connectionType := ct, status := .PENDING, retryCount := 0, setupError := none,
      subscriptionAmount := p.amount, subscriptionInterval := p.interval,
      nwcConnectionString := none, nwcPaymentId := none }
  let db0 : DB := ⟨freshShop p, p.provider, conn0, []⟩
  if natFalsy p.amount then { db0 with conn := { conn0 with status := .ACTIVE } }
  else (initiateConnectionPayment env db0).db

/-- One lifecycle operation on the persistent state: an invocation of the
manual-retry route, the Greenfield create-store route, or the webhook
route, with arbitrary oracle outcomes. -/
inductive Step : DB → DB → Prop
  | retry (env : RetryEnv) (db : DB) : Step db (retryRoutePOST env db).db
  | greenfield (env : GreenfieldEnv) (shopIdStr shopName : String) (db : DB) :
      Step db (greenfieldPOST env shopIdStr shopName db).db
  | webhook (env : WebhookEnv) (db : DB) : Step db (webhookPOST env db).db

/-- States reachable from some creation request by lifecycle operations. -/
inductive Reachable : DB → Prop
  | init (p : CreateParams) (env : PaymentEnv) : Reachable (initialDB p env)
  | step {db db' : DB} : Reachable db → Step db db' → Reachable db'

/-! ## Preservation lemmas -/

theorem initiateConnectionPaymentBody_retryCount (env : PaymentEnv) (db : DB) :
    (initiateConnectionPaymentBody env db).db.conn.retryCount = db.conn.retryCount := by
  unfold initiateConnectionPaymentBody
  try dsimp only
  repeat' split
  all_goals rfl

theorem initiateConnectionPayment_retryCount (env : PaymentEnv) (db : DB) :
    (initiateConnectionPayment env db).db.conn.retryCount = db.conn.retryCount := by
  unfold initiateConnectionPayment
  try dsimp only
  split <;> exact initiateConnectionPaymentBody_retryCount env db

theorem retryConnectionPayment_retryCount (env : RetryPayEnv) (db : DB) :
    (retryConnectionPayment env db).db.conn.retryCount = db.conn.retryCount := by
  unfold retryConnectionPayment
  try dsimp only
  repeat' split
  all_goals first
  | rfl
  | exact initiateConnectionPayment_retryCount env.payEnv db

theorem retryBTCPaySetup_retryCount (env : RetryEnv) (db : DB) :
    (retryBTCPaySetup env db).2.conn.retryCount = db.conn.retryCount := by
  unfold retryBTCPaySetup
  try dsimp only
  repeat' split
  all_goals rfl

theorem retryNWCPayment_retryCount (env : RetryEnv) (db : DB) :
    (retryNWCPayment env db).2.conn.retryCount = db.conn.retryCount := by
  unfold retryNWCPayment
  try dsimp only
  repeat' split
  all_goals exact retryConnectionPayment_retryCount env.retryPay db

theorem retryConnection_retryCount (env : RetryEnv) (db : DB) :
    (retryConnection env db).2.conn.retryCount = db.conn.retryCount := by
  unfold retryConnection
  try dsimp only
  repeat' split
  all_goals first
  | rfl
  | exact retryBTCPaySetup_retryCount env db
  | exact retryNWCPayment_retryCount env db

theorem retryRoutePOST_retryCount_le (env : RetryEnv) (db : DB)
    (h : db.conn.retryCount ≤ 5) : (retryRoutePOST env db).db.conn.retryCount ≤ 5 := by
  unfold retryRoutePOST
  try dsimp only
  repeat' split
  all_goals first
  | exact h
  | (simp only [retryConnection_retryCount]; simp; omega)

theorem greenfieldSuccess_retryCount_le (env : GreenfieldEnv) (db : DB)
    (sid sn stId uId : String) (n : Nat) (ds : List Nat) (h : db.conn.retryCount ≤ 5) :
    (greenfieldSuccess env db sid sn stId uId n ds).db.conn.retryCount ≤ 5 := by
  unfold greenfieldSuccess
  try dsimp only
  repeat' split
  all_goals first
  | exact h
  | simp

theorem greenfieldFailure_retryCount_le (env : GreenfieldEnv) (db : DB) (e2 : String)
    (h : db.conn.retryCount ≤ 5) :
    (greenfieldFailure env db e2).db.conn.retryCount ≤ 5 := by
  unfold greenfieldFailure
  try dsimp only
  repeat' split
  all_goals first
  | exact h
  | simp

theorem greenfieldPOST_retryCount_le (env : GreenfieldEnv) (sid sn : String) (db : DB)
    (h : db.conn.retryCount ≤ 5) :
    (greenfieldPOST env sid sn db).db.conn.retryCount ≤ 5 := by
  unfold greenfieldPOST
  try dsimp only
  repeat' split
  all_goals first
  | exact h
  | exact greenfieldSuccess_retryCount_le env db sid sn _ _ _ _ h
  | exact greenfieldFailure_retryCount_le env db _ h

theorem webhookPOST_retryCount (env : WebhookEnv) (db : DB) :
    (webhookPOST env db).db.conn.retryCount = db.conn.retryCount := by
  unfold webhookPOST handleStoreModified handleUserRemoved handleStoreDeleted
  try dsimp only
  repeat' split
  all_goals rfl

theorem initialDB_retryCount (p : CreateParams) (env : PaymentEnv) :
    (initialDB p env).conn.retryCount = 0 := by
  unfold initialDB
  split
  · simp
  · rw [initiateConnectionPayment_retryCount]

theorem reachable_retryCount_le (db : DB) (h : Reachable db) : db.conn.retryCount ≤ 5 := by
  induction h with
  | init p env => rw [initialDB_retryCount]; omega
  | step _ s ih =>
    cases s with
    | retry e => exact retryRoutePOST_retryCount_le e _ ih
    | greenfield e sid sn => exact greenfieldPOST_retryCount_le e sid sn _ ih
    | webhook e => rw [webhookPOST_retryCount]; exact ih

theorem retryRoutePOST_disconnected_frozen (env : RetryEnv) (db : DB)
    (h : db.conn.status = .DISCONNECTED) : (retryRoutePOST env db).db = db := by
  unfold retryRoutePOST
  try dsimp only
  repeat' split
  all_goals first
  | rfl
  | (exfalso; simp_all)

theorem handleStoreModified_status (db : DB) :
    (handleStoreModified db).conn.status = db.conn.status := rfl

theorem handleStoreDeleted_status (db : DB) :
    (handleStoreDeleted db).conn.status = .DISCONNECTED := rfl

theorem handleUserRemoved_status (db : DB) (u : Option String) :
    (handleUserRemoved db u).conn.status = db.conn.status ∨
    (handleUserRemoved db u).conn.status = .DISCONNECTED := by
  unfold handleUserRemoved
  try dsimp only
  repeat' split
  all_goals simp

theorem webhookPOST_disconnected_frozen (env : WebhookEnv) (db : DB)
    (h : db.conn.status = .DISCONNECTED) :
    (webhookPOST env db).db.conn.status = .DISCONNECTED := by
  unfold webhookPOST
  try dsimp only
  repeat' split
  all_goals first
  | exact h
  | exact handleStoreDeleted_status _
  | (rcases handleUserRemoved_status db _ with h2 | h2 <;> rw [h2]
     exact h)

theorem greenfieldSuccess_setupCalls (env : GreenfieldEnv) (db : DB)
    (sid sn stId uId : String) (n : Nat) (ds : List Nat) :
    (greenfieldSuccess env db sid sn stId uId n ds).setupCalls = n := rfl

theorem greenfieldFailure_setupCalls (env : GreenfieldEnv) (db : DB) (e2 : String) :
    (greenfieldFailure env db e2).setupCalls = 2 := rfl

theorem greenfieldPOST_setupCalls_le (env : GreenfieldEnv) (sid sn : String) (db : DB) :
    (greenfieldPOST env sid sn db).setupCalls ≤ 2 := by
  unfold greenfieldPOST
  try dsimp only
  repeat' split
  all_goals simp [greenfieldSuccess_setupCalls, greenfieldFailure_setupCalls]

/-! ## Concrete scenario values used by witnesses and counterexamples -/

/-- A BTCPay provider with full configuration and no webhook secret. -/
def demoProvider : Provider :=
  { name := "ProviderOne", serviceType := .BTCPAY_SERVER,
    hostUrl := some "https://btcpay.example", btcpayApiKey := some "encKey",
    webhookSecret := none, lightningAddress := some "pay@ln.example" }

/-- Creation parameters for a 500 sats / 30 days paid subscription. -/
def demoParams : CreateParams :=
  { shopIdStr := "1", shopName := "CoffeeShop", website := none, contactEmail := none,
    lightningAddress := none, provider := demoProvider, amount := some 500,
    interval := some "30 days" }

/-- Creation parameters for a free listing on the same provider. -/
def demoParamsFree : CreateParams := { demoParams with amount := none, interval := none }

/-- Payment oracle where the lnurlp fetch fails, so the payment fails. -/
def payFailEnv : PaymentEnv :=
  { connFound := true, encryptResult := .ok "ENC", writeThrow := fun _ => none,
    nwcUrl := .ok ("wss://relay.example", "s3c"), lnurlpCallback := .error (),
    invoicePr := .ok none, nwcRandom := .ok ("preimage1", "nwc_1_ab"),
    walletProvider := "Unknown NWC Wallet" }

/-- Payment oracle where every external call succeeds. -/
def payOkEnv : PaymentEnv :=
  { payFailEnv with
    lnurlpCallback := .ok (some "https://cb.example/pay"),
    invoicePr := .ok (some "lnbc500n1payreq") }

/-- Retry-payment oracle delegating to the all-success payment oracle. -/
def retryPayEnvOk : RetryPayEnv :=
  { connFound := true, decryptResult := .ok "nwcplain", payEnv := payOkEnv }

/-- Retry-route oracle whose Greenfield setup attempt throws. -/
def retryFailEnv : RetryEnv :=
  { authed := true, connFound := true, decryptApiKey := .ok "KEY",
    setupResult := .error "boom", retryPay := retryPayEnvOk }

/-- Greenfield oracle where provisioning succeeds on the first attempt. -/
def gfOkEnv : GreenfieldEnv :=
  { authed := true, rateLimited := false, fieldsPresent := true, shopFound := true,
    providerFound := true, decryptApiKey := .ok "KEY", flagDisabled := false,
    setup := fun _ => .ok ("st1", "u1"), connRowFound := true }

/-- Greenfield oracle where both provisioning attempts throw. -/
def gfFailEnv : GreenfieldEnv := { gfOkEnv with setup := fun _ => .error "btcpay down" }

/-- Webhook oracle for a store.user.removed event against store st1/user u1
(the demo provider has no webhook secret, so verification is skipped). -/
def whUserRemovedEnv : WebhookEnv :=
  { flagDisabled := false, rateLimited := false, signature := some "sha256=aa",
    body := "{}", payload := some ⟨some "st1", some "store.user.removed", some "u1"⟩,
    hmac := fun _ _ => "" }

/-- Webhook oracle for a store.deleted event against store st1. -/
def whStoreDeletedEnv : WebhookEnv :=
  { whUserRemovedEnv with payload := some ⟨some "st1", some "store.deleted", none⟩ }

/-- Paid-subscription creation whose first payment fails: the connection is
left FAILED with retryCount 0. -/
def dbPaidFail : DB := initialDB demoParams payFailEnv

/-- One failed manual retry later: FAILED with retryCount 1. -/
def dbRetried : DB := (retryRoutePOST retryFailEnv dbPaidFail).db

/-- A successful standalone Greenfield call after that: ACTIVE with
retryCount reset to 0. -/
def dbAfterGfReset : DB := (greenfieldPOST gfOkEnv "1" "CoffeeShop" dbRetried).db

/-- Free-listing creation: ACTIVE with no BTCPay credentials. -/
def dbFree : DB := initialDB demoParamsFree payFailEnv

/-- After a successful Greenfield call: ACTIVE with credentials st1/u1. -/
def dbProvisioned : DB := (greenfieldPOST gfOkEnv "1" "CoffeeShop" dbFree).db

/-- After a store.user.removed webhook for u1: DISCONNECTED, credentials
intact. -/
def dbDisconnected : DB := (webhookPOST whUserRemovedEnv dbProvisioned).db

/-- After a standalone Greenfield call that fails twice: PENDING_SETUP,
leaving the DISCONNECTED state. -/
def dbEscaped : DB := (greenfieldPOST gfFailEnv "1" "CoffeeShop" dbDisconnected).db

/-- After a store.deleted webhook: DISCONNECTED again, entered from
PENDING_SETUP. -/
def dbReDisconnected : DB := (webhookPOST whStoreDeletedEnv dbEscaped).db

/-- The demo provider with no receiving lightning address. -/
def noAddrProvider : Provider := { demoProvider with lightningAddress := none }

/-- A fresh PENDING paid-subscription connection (500 sats / 30 days) whose
provider lacks a lightning address. -/
def noAddrConn : Connection :=
  { connectionType := .PAID_SUBSCRIPTION, status := .PENDING, retryCount := 0,
    setupError := none, subscriptionAmount := some 500,
    subscriptionInterval := some "30 days",
    nwcConnectionString := none, nwcPaymentId := none }

def noAddrDB : DB :=
  { shop := freshShop demoParams, provider := noAddrProvider, conn := noAddrConn,
    history := [] }

/-- The same fresh connection with a fully configured provider. -/
def demoDB : DB := { noAddrDB with provider := demoProvider }

/-- Payment oracle whose encryption step throws. -/
def encThrowEnv : PaymentEnv := { payOkEnv with encryptResult := .error "enc boom" }

/-- A FAILED connection whose persisted retryCount is at the maximum of 5. -/
def rc5Conn : Connection :=
  { connectionType := .PAID_SUBSCRIPTION, status := .FAILED, retryCount := 5,
    setupError := some "Payment failed", subscriptionAmount := some 500,
    subscriptionInterval := some "30 days", nwcConnectionString := some "ENC",
    nwcPaymentId := none }

def rc5DB : DB :=
  { shop := freshShop demoParams, provider := demoProvider, conn := rc5Conn,
    history := [] }

/-! ## Claim theorems -/

/-- C1 (counterexample): retryCount is not monotonically non-decreasing over
the lifecycle operations: from a reachable state with retryCount 1 (a paid
creation whose payment failed, followed by one failed manual retry), a
successful standalone Greenfield provisioning call writes retryCount back to
0. -/
theorem retryCount_not_monotone_counterexample :
    Reachable dbRetried ∧ Step dbRetried dbAfterGfReset ∧
    dbRetried.conn.retryCount = 1 ∧ dbAfterGfReset.conn.retryCount = 0 :=
  ⟨Reachable.step (Reachable.init demoParams payFailEnv)
      (Step.retry retryFailEnv dbPaidFail),
   Step.greenfield gfOkEnv "1" "CoffeeShop" dbRetried,
   by decide, by decide⟩

/-- C1 (amended): in every reachable state retryCount is at most 5, and a
manual retry invoked with retryCount = 5 on a retryable (FAILED or
PENDING_SETUP) connection is rejected with the retry-limit error and leaves
the Connection row unchanged; however retryCount is not monotone, since a
successful Greenfield provisioning call resets it to 0 (and an exhausted
provisioning loop overwrites it with the local loop counter 1). -/
theorem retryCount_bounded_and_limit_rejected :
    (∀ db : DB, Reachable db → db.conn.retryCount ≤ 5) ∧
    (∀ (env : RetryEnv) (db : DB), env.authed = true → env.connFound = true →
      (db.conn.status = .FAILED ∨ db.conn.status = .PENDING_SETUP) →
      db.conn.retryCount = 5 →
      (retryRoutePOST env db).resp = .retryLimit ∧ (retryRoutePOST env db).db = db) := by
  constructor
  · exact reachable_retryCount_le
  · intro env db h1 h2 h3 h4
    have hs : ¬ (db.conn.status ≠ .FAILED ∧ db.conn.status ≠ .PENDING_SETUP) := by
      rcases h3 with h | h <;> simp [h]
    constructor <;> simp [retryRoutePOST, h1, h2, h4, hs]

/-- C1 (witness): the bound applies to the freshly created free listing, and
the retry-limit rejection applies to a concrete FAILED connection with
retryCount 5. -/
theorem retryCount_bounded_and_limit_rejected_witness :
    dbFree.conn.retryCount ≤ 5 ∧ (retryRoutePOST retryFailEnv rc5DB).db = rc5DB :=
  ⟨retryCount_bounded_and_limit_rejected.1 dbFree (Reachable.init demoParamsFree payFailEnv),
   (retryCount_bounded_and_limit_rejected.2 retryFailEnv rc5DB (by decide) (by decide)
     (Or.inl (by decide)) (by decide)).2⟩

/-- C2: for a PAID_SUBSCRIPTION connection (500 sats / 30 days) whose
provider has no lightning address, `initiateConnectionPayment` returns
success false with the configured-address error, but it returns early
without any write: the Connection row is unchanged and its status stays
PENDING instead of becoming FAILED (the shop-creation route comments that
the payment service has already set FAILED, which it has not). -/
theorem missing_address_error_but_status_unchanged :
    (initiateConnectionPayment payOkEnv noAddrDB).result =
      .ok { success := false, error := some "Provider lightning address not configured" } ∧
    (initiateConnectionPayment payOkEnv noAddrDB).db = noAddrDB ∧
    noAddrDB.conn.status = .PENDING ∧
    (initiateConnectionPayment payOkEnv noAddrDB).db.conn.status ≠ .FAILED :=
  ⟨by decide, by decide, by decide, by decide⟩

/-- C3 (counterexample): DISCONNECTED is not terminal and is not entered
only from ACTIVE or FAILED: a reachable DISCONNECTED connection is moved to
PENDING_SETUP by a standalone Greenfield call that fails twice (the route
never checks the current status), and the subsequent store.deleted webhook
then enters DISCONNECTED from PENDING_SETUP. -/
theorem disconnected_not_terminal_counterexample :
    Reachable dbDisconnected ∧ dbDisconnected.conn.status = .DISCONNECTED ∧
    Step dbDisconnected dbEscaped ∧ dbEscaped.conn.status = .PENDING_SETUP ∧
    Step dbEscaped dbReDisconnected ∧ dbReDisconnected.conn.status = .DISCONNECTED :=
  ⟨Reachable.step
      (Reachable.step (Reachable.init demoParamsFree payFailEnv)
        (Step.greenfield gfOkEnv "1" "CoffeeShop" dbFree))
      (Step.webhook whUserRemovedEnv dbProvisioned),
   by decide,
   Step.greenfield gfFailEnv "1" "CoffeeShop" dbDisconnected,
   by decide,
   Step.webhook whStoreDeletedEnv dbEscaped,
   by decide⟩

/-- C3 (amended): a manual retry of a DISCONNECTED connection is rejected
with no state change, and the webhook route never moves a connection out of
DISCONNECTED; the standalone Greenfield provisioning route, however, does
not check the status and can move a DISCONNECTED connection away, and the
disconnect webhooks set DISCONNECTED from any current status with matching
store credentials. -/
theorem disconnected_preserved_by_retry_and_webhook :
    (∀ (env : RetryEnv) (db : DB), db.conn.status = .DISCONNECTED →
      (retryRoutePOST env db).db = db) ∧
    (∀ (env : WebhookEnv) (db : DB), db.conn.status = .DISCONNECTED →
      (webhookPOST env db).db.conn.status = .DISCONNECTED) :=
  ⟨retryRoutePOST_disconnected_frozen, webhookPOST_disconnected_frozen⟩

/-- C3 (witness): both parts applied to the concrete reachable DISCONNECTED
state. -/
theorem disconnected_preserved_witness :
    (retryRoutePOST retryFailEnv dbDisconnected).db = dbDisconnected ∧
    (webhookPOST whStoreDeletedEnv dbDisconnected).db.conn.status = .DISCONNECTED :=
  ⟨disconnected_preserved_by_retry_and_webhook.1 retryFailEnv dbDisconnected (by decide),
   disconnected_preserved_by_retry_and_webhook.2 whStoreDeletedEnv dbDisconnected (by decide)⟩

/-- C4: for every oracle environment and state, `initiateConnectionPayment`
returns a PaymentResult (never an escaped exception), and whenever its body
raises, the boundary catch converts the error into success false with the
error message. -/
theorem payment_never_raises :
    ∀ (env : PaymentEnv) (db : DB),
      (∃ r, (initiateConnectionPayment env db).result = .ok r) ∧
      (∀ e, (initiateConnectionPaymentBody env db).result = .error e →
        (initiateConnectionPayment env db).result =
          .ok { success := false, preimage := none, paymentId := none,
                error := some e, amount := none, recipient := none }) := by
  intro env db
  constructor
  · cases h : (initiateConnectionPaymentBody env db).result with
    | ok r => exact ⟨r, by simp [initiateConnectionPayment, h]⟩
    | error e =>
        refine ⟨{ success := false, error := some e }, ?_⟩
        simp [initiateConnectionPayment, h]
  · intro e he
    simp [initiateConnectionPayment, he]

/-- C4 (witness): with an encryption oracle that throws, the body raises and
the boundary converts the error. -/
theorem payment_never_raises_witness :
    (initiateConnectionPayment encThrowEnv demoDB).result =
      .ok { success := false, preimage := none, paymentId := none,
            error := some "enc boom", amount := none, recipient := none } :=
  (payment_never_raises encThrowEnv demoDB).2 "enc boom" (by decide)

/-- C5: a verified store.deleted webhook whose storeId matches the Shop
disconnects the connection, nulls the Shop credential fields and appends the
audit row; a store.deleted (or any) event whose storeId matches no Shop
changes nothing and is still acknowledged with received = true. -/
theorem store_deleted_webhook_behaviour :
    (∀ (env : WebhookEnv) (db : DB) (p : WhPayload) (sig sid : String),
      env.flagDisabled = false → env.rateLimited = false →
      env.signature = some sig → env.payload = some p →
      p.storeId = some sid → sid ≠ "" → p.evType = some "store.deleted" →
      db.shop.btcpayStoreId = some sid →
      db.provider.serviceType = .BTCPAY_SERVER → strFalsy db.provider.hostUrl = false →
      (strFalsy db.provider.webhookSecret = true ∨
        verifyWebhookSignature env.hmac env.body sig
          (db.provider.webhookSecret.getD "") = true) →
      (webhookPOST env db).resp = .received ∧
      (webhookPOST env db).db = handleStoreDeleted db ∧
      (handleStoreDeleted db).conn.status = .DISCONNECTED ∧
      (handleStoreDeleted db).shop.btcpayStoreId = none ∧
      (handleStoreDeleted db).shop.btcpayUserId = none ∧
      (handleStoreDeleted db).shop.btcpayUsername = none ∧
      (handleStoreDeleted db).history = db.history ++
        [{ paymentAmount := 0, status := "store_deleted_webhook",
           paymentMethod := "btcpay_webhook", walletProvider := none, preimage := none,
           errorMessage := some "Store deleted from BTCPay Server" }]) ∧
    (∀ (env : WebhookEnv) (db : DB) (p : WhPayload) (sig sid t : String),
      env.flagDisabled = false → env.rateLimited = false →
      env.signature = some sig → env.payload = some p →
      p.storeId = some sid → sid ≠ "" → p.evType = some t → t ≠ "" →
      db.shop.btcpayStoreId ≠ some sid →
      (webhookPOST env db).resp = .received ∧ (webhookPOST env db).db = db) := by
  constructor
  · intro env db p sig sid h1 h2 h3 h4 h5 h6 h7 h8 h9 h10 h11
    have hsid : strFalsy (some sid) = false := by simpa [strFalsy] using h6
    have hty : strFalsy (some ("store.deleted" : String)) = false := by decide
    have e1 : ("store.deleted" : String) ≠ "store.modified" := by decide
    have e2 : ("store.deleted" : String) ≠ "store.user.removed" := by decide
    have hroute : webhookPOST env db = ⟨.received, handleStoreDeleted db⟩ := by
      rcases h11 with h11 | h11 <;>
        simp [webhookPOST, h1, h2, h3, h4, hsid, hty, h5, h7, h8, h9, h10, h11,
          e1, e2]
    refine ⟨by rw [hroute], by rw [hroute], rfl, rfl, rfl, rfl, ?_⟩
    simp [handleStoreDeleted]
  · intro env db p sig sid t h1 h2 h3 h4 h5 h6 h7 h8 h9
    have hsid : strFalsy (some sid) = false := by simpa [strFalsy] using h6
    have hty : strFalsy (some t) = false := by simpa [strFalsy] using h8
    have hroute : webhookPOST env db = ⟨.received, db⟩ := by
      simp [webhookPOST, h1, h2, h3, h4, hsid, hty, h5, h7, h9]
    exact ⟨by rw [hroute], by rw [hroute]⟩

/-- C5 (witness): the matching case applied to the provisioned shop st1 and
the non-matching case applied to a state whose shop has no store id. -/
theorem store_deleted_webhook_witness :
    ((webhookPOST whStoreDeletedEnv dbProvisioned).resp = .received ∧
      (webhookPOST whStoreDeletedEnv dbProvisioned).db = handleStoreDeleted dbProvisioned) ∧
    ((webhookPOST whStoreDeletedEnv dbFree).resp = .received ∧
      (webhookPOST whStoreDeletedEnv dbFree).db = dbFree) :=
  ⟨⟨(store_deleted_webhook_behaviour.1 whStoreDeletedEnv dbProvisioned
      ⟨some "st1", some "store.deleted", none⟩ "sha256=aa" "st1"
      (by decide) (by decide) (by decide) (by decide) (by decide) (by decide) (by decide)
      (by decide) (by decide) (by decide) (Or.inl (by decide))).1,
    (store_deleted_webhook_behaviour.1 whStoreDeletedEnv dbProvisioned
      ⟨some "st1", some "store.deleted", none⟩ "sha256=aa" "st1"
      (by decide) (by decide) (by decide) (by decide) (by decide) (by decide) (by decide)
      (by decide) (by decide) (by decide) (Or.inl (by decide))).2.1⟩,
   store_deleted_webhook_behaviour.2 whStoreDeletedEnv dbFree
      ⟨some "st1", some "store.deleted", none⟩ "sha256=aa" "st1" "store.deleted"
      (by decide) (by decide) (by decide) (by decide) (by decide) (by decide) (by decide)
      (by decide) (by decide)⟩

/-- C7: a connection with no subscription amount makes
`initiateConnectionPayment` return success false with the no-amount error,
performing no outbound HTTP call and no write at all. -/
theorem no_amount_no_http :
    ∀ (env : PaymentEnv) (db : DB), env.connFound = true →
      db.conn.connectionType = .PAID_SUBSCRIPTION →
      db.conn.subscriptionAmount = none →
      (initiateConnectionPayment env db).result =
        .ok { success := false, error := some "No subscription amount configured" } ∧
      (initiateConnectionPayment env db).calls = [] ∧
      (initiateConnectionPayment env db).db = db := by
  intro env db h1 _h2 h3
  refine ⟨?_, ?_, ?_⟩ <;>
    simp [initiateConnectionPayment, initiateConnectionPaymentBody, natFalsy, h1, h3]

/-- The demo connection with the subscription amount removed. -/
def noAmountDB : DB :=
  { shop := freshShop demoParams, provider := demoProvider,
    conn := { noAddrConn with subscriptionAmount := none },
    history := [] }

/-- C7 (witness): the no-amount early return on a concrete connection. -/
theorem no_amount_no_http_witness :
    (initiateConnectionPayment payOkEnv noAmountDB).result =
      .ok { success := false, error := some "No subscription amount configured" } ∧
    (initiateConnectionPayment payOkEnv noAmountDB).calls = [] ∧
    (initiateConnectionPayment payOkEnv noAmountDB).db = noAmountDB :=
  no_amount_no_http payOkEnv noAmountDB (by decide) (by decide) (by decide)

/-- A stand-in for the live client used to instantiate the dry-run wrapper. -/
def liveStub : ClientOp → ClientResult := fun _ => ClientResult.unit

/-- String append is associative (used to expose the dryrun_ prefix). -/
theorem str_append_assoc (a b c : String) : a ++ b ++ c = a ++ (b ++ c) := by
  cases a with | mk xa =>
  cases b with | mk xb =>
  cases c with | mk xc =>
  exact congrArg String.mk (List.append_assoc xa xb xc)

/-- Time-seeded dry-run user ids carry the dryrun_ tag. -/
theorem dryrun_user_tag (s : String) : idIsDryrun ("dryrun_user_" ++ s) :=
  ⟨"user_" ++ s, by
    have h : ("dryrun_user_" : String) = "dryrun_" ++ "user_" := by decide
    rw [h, str_append_assoc]⟩

/-- Time-seeded dry-run store ids carry the dryrun_ tag. -/
theorem dryrun_store_tag (s : String) : idIsDryrun ("dryrun_store_" ++ s) :=
  ⟨"store_" ++ s, by
    have h : ("dryrun_store_" : String) = "dryrun_" ++ "store_" := by decide
    rw [h, str_append_assoc]⟩

/-- C8 (counterexample): in dry-run mode healthCheck performs no network
I/O but returns the plain boolean true, which carries no id at all, so it is
not the case that every operation returns a value with a dryrun_-tagged
id. -/
theorem dry_run_healthCheck_counterexample :
    dryRunClientCall true liveStub 0 ClientOp.healthCheck = (false, ClientResult.bool true) ∧
    resultCarriesId (ClientResult.bool true) = false :=
  ⟨rfl, rfl⟩

/-- C8 (amended): every dry-run operation performs no network I/O, and every
dry-run operation whose result carries ids at all (users, stores, store-user
lists, webhook descriptors, shop setups) only carries dryrun_-tagged ids;
the void-returning operations and healthCheck return no id. -/
theorem dry_run_no_network_and_tagged_ids :
    ∀ (live : ClientOp → ClientResult) (now : Nat) (op : ClientOp),
      (dryRunClientCall true live now op).1 = false ∧
      (resultCarriesId (dryRunClientCall true live now op).2 = true →
        ResultIdsDryrun (dryRunClientCall true live now op).2) := by
  intro live now op
  refine ⟨by cases op <;> rfl, ?_⟩
  intro hc
  cases op with
  | createUser e pw => exact dryrun_user_tag (toString now)
  | getUser u => exact dryrun_user_tag (toString now)
  | deleteUser u => simp [dryRunClientCall, resultCarriesId] at hc
  | createStore n w => exact dryrun_store_tag (toString now)
  | getStore s => exact dryrun_store_tag (toString now)
  | updateStore s => exact dryrun_store_tag (toString now)
  | deleteStore s => simp [dryRunClientCall, resultCarriesId] at hc
  | addStoreUser s u r => simp [dryRunClientCall, resultCarriesId] at hc
  | removeStoreUser s u => simp [dryRunClientCall, resultCarriesId] at hc
  | getStoreUsers s =>
    refine ⟨by decide, ?_⟩
    intro q hq
    rw [List.mem_singleton] at hq
    subst hq
    exact ⟨"user_123", by decide⟩
  | createWebhook s u ev => exact ⟨"webhook_123", by decide⟩
  | createShopSetup sn se sp w =>
    exact ⟨dryrun_user_tag (toString now), dryrun_store_tag (toString now)⟩
  | healthCheck => simp [dryRunClientCall, resultCarriesId] at hc

/-- C8 (witness): the amended statement applied to a concrete dry-run
createUser call. -/
theorem dry_run_no_network_witness :
    (dryRunClientCall true liveStub 7 (ClientOp.createUser "a@b" "pw")).1 = false ∧
    ResultIdsDryrun (dryRunClientCall true liveStub 7 (ClientOp.createUser "a@b" "pw")).2 :=
  ⟨(dry_run_no_network_and_tagged_ids liveStub 7 (ClientOp.createUser "a@b" "pw")).1,
   (dry_run_no_network_and_tagged_ids liveStub 7 (ClientOp.createUser "a@b" "pw")).2
     (by decide)⟩

/-- C9: the Greenfield provisioning route makes at most 2 createShopSetup
calls, sleeps the constant 5000 ms between the first failure and the single
retry, and on double failure persists PENDING_SETUP with a non-null
setupError and writes retryCount to the local loop counter 1. -/
theorem provisioning_bounded_retry :
    (∀ (env : GreenfieldEnv) (sid sn : String) (db : DB),
      (greenfieldPOST env sid sn db).setupCalls ≤ 2) ∧
    (∀ (env : GreenfieldEnv) (sid sn : String) (db : DB) (k e1 e2 : String),
      env.authed = true → env.rateLimited = false → env.fieldsPresent = true →
      env.shopFound = true → env.providerFound = true →
      db.provider.serviceType = .BTCPAY_SERVER →
      strFalsy db.provider.hostUrl = false → strFalsy db.provider.btcpayApiKey = false →
      env.decryptApiKey = .ok k → env.flagDisabled = false →
      env.setup 0 = .error e1 → env.setup 1 = .error e2 → env.connRowFound = true →
      (greenfieldPOST env sid sn db).setupCalls = 2 ∧
      (greenfieldPOST env sid sn db).delaysMs = [5000] ∧
      (greenfieldPOST env sid sn db).db.conn.status = .PENDING_SETUP ∧
      (greenfieldPOST env sid sn db).db.conn.setupError = some e2 ∧
      (greenfieldPOST env sid sn db).db.conn.retryCount = 1 ∧
      (greenfieldPOST env sid sn db).resp = .failed e2) := by
  constructor
  · exact greenfieldPOST_setupCalls_le
  · intro env sid sn db k e1 e2 h1 h2 h3 h4 h5 h6 h7 h8 h9 h10 h11 h12 h13
    refine ⟨?_, ?_, ?_, ?_, ?_, ?_⟩ <;>
      simp [greenfieldPOST, greenfieldFailure, h1, h2, h3, h4, h5, h6, h7, h8, h9, h10,
        h11, h12, h13]

/-- C9 (witness): the exhausted-retries outcome on the concrete free-listing
state with a twice-failing setup oracle. -/
theorem provisioning_bounded_retry_witness :
    (greenfieldPOST gfFailEnv "1" "CoffeeShop" dbFree).setupCalls = 2 ∧
    (greenfieldPOST gfFailEnv "1" "CoffeeShop" dbFree).delaysMs = [5000] ∧
    (greenfieldPOST gfFailEnv "1" "CoffeeShop" dbFree).db.conn.status = .PENDING_SETUP ∧
    (greenfieldPOST gfFailEnv "1" "CoffeeShop" dbFree).db.conn.setupError =
      some "btcpay down" ∧
    (greenfieldPOST gfFailEnv "1" "CoffeeShop" dbFree).db.conn.retryCount = 1 ∧
    (greenfieldPOST gfFailEnv "1" "CoffeeShop" dbFree).resp = .failed "btcpay down" :=
  provisioning_bounded_retry.2 gfFailEnv "1" "CoffeeShop" dbFree "KEY" "btcpay down"
    "btcpay down" (by decide) (by decide) (by decide) (by decide) (by decide) (by decide)
    (by decide) (by decide) (by decide) (by decide) (by decide) (by decide) (by decide)

/-- C10: a manual retry that passes the ownership, status and limit checks
increments retryCount by exactly one and sets status PENDING before
dispatching; for a connection whose provider is not a BTCPay server and
which has no stored NWC string, no sub-operation runs, so the final row
keeps the incremented retryCount and status PENDING, and the route answers
with the undeterminable-retry-method failure. -/
theorem retry_consumes_attempt_without_dispatch :
    ∀ (env : RetryEnv) (db : DB), env.authed = true → env.connFound = true →
      (db.conn.status = .FAILED ∨ db.conn.status = .PENDING_SETUP) →
      db.conn.retryCount < 5 →
      db.provider.serviceType ≠ .BTCPAY_SERVER →
      db.conn.nwcConnectionString = none →
      (retryRoutePOST env db).db =
        { db with conn := { db.conn with
            retryCount := db.conn.retryCount + 1,
            status := .PENDING } } ∧
      (retryRoutePOST env db).resp =
        .failure (some "Unable to determine retry method for this connection")
          (decide (db.conn.retryCount + 1 < 5)) := by
  intro env db h1 h2 h3 h4 h5 h6
  have hs : ¬ (db.conn.status ≠ .FAILED ∧ db.conn.status ≠ .PENDING_SETUP) := by
    rcases h3 with h | h <;> simp [h]
  have hlim : ¬ (db.conn.retryCount ≥ 5) := by omega
  constructor <;>
    simp [retryRoutePOST, retryConnection, strFalsy, h1, h2, hs, hlim, h5, h6]

/-- The demo provider as a non-BTCPay service. -/
def otherProvider : Provider := { demoProvider with serviceType := .OTHER }

/-- A FAILED paid connection on a non-BTCPay provider with no stored NWC
string. -/
def orphanDB : DB :=
  { shop := freshShop demoParams, provider := otherProvider,
    conn := { noAddrConn with status := .FAILED },
    history := [] }

/-- C10 (witness): the undeterminable-retry-method case on a concrete
connection. -/
theorem retry_consumes_attempt_witness :
    (retryRoutePOST retryFailEnv orphanDB).db =
      { orphanDB with conn := { orphanDB.conn with
          retryCount := orphanDB.conn.retryCount + 1, status := .PENDING } } :=
  (retry_consumes_attempt_without_dispatch retryFailEnv orphanDB (by decide) (by decide)
    (Or.inl (by decide)) (by decide) (by decide) (by decide)).1

end Bitinfrashop
